import Mathlib

/-!
# mini-shell: a shallow embedding of `src/main.rs` and `src/executor.rs`

The program is an interactive shell: an infinite loop that prints a prompt,
reads a line, recognises the `exit` and `cd` built-ins, and otherwise forks a
child which optionally remaps stdout (`>`) or stdin (`<`) and then calls
`execvp` via `run_execvp`.

The embedding models one iteration of the loop as a pure function of the
current working directory and an *environment*: the results the OS delivers
for each system call of that iteration (`getcwd`, stdout flush, `read_line`,
`chdir`, `fork`).  The child's code after a successful fork is modelled
separately (`childRun`), again over an oracle for `open` and `execvp`
failures.  Rust `unwrap` on a failed result is modelled as a `panicked`
outcome (a Rust panic prints a diagnostic and terminates the process with
exit status 101).
-/

namespace MiniShell

/-- Rust's `char::is_ascii_whitespace`: space, tab, newline, carriage return,
form feed.  `split_ascii_whitespace` splits on these; the source's `trim`
strips Unicode whitespace, of which these are the ASCII cases relevant here. -/
def isAsciiWs (c : Char) : Bool :=
  c = ' ' || c = '\t' || c = '\n' || c = '\r' || c = Char.ofNat 12

/-- `str::trim` on the character list: drop whitespace from both ends. -/
def rustTrimList (l : List Char) : List Char :=
  ((l.dropWhile isAsciiWs).reverse.dropWhile isAsciiWs).reverse

/-- `str::trim` (modelled on the ASCII whitespace subset). -/
def rustTrim (s : String) : String :=
  ⟨rustTrimList s.data⟩

/-- Accumulator-based word splitter: `cur` is the (reversed) word in
progress.  Models `str::split_ascii_whitespace` on a character list. -/
def splitWsAux : List Char → List Char → List (List Char)
  | [], cur => if cur.isEmpty then [] else [cur.reverse]
  | c :: cs, cur =>
    if isAsciiWs c then
      if cur.isEmpty then splitWsAux cs []
      else cur.reverse :: splitWsAux cs []
    else splitWsAux cs (c :: cur)

/-- `str::split_ascii_whitespace` on a character list. -/
def splitAsciiWs (l : List Char) : List (List Char) :=
  splitWsAux l []

/-- `command.split_ascii_whitespace().collect::<Vec<&str>>()`. -/
def splitAsciiWhitespace (s : String) : List String :=
  (splitAsciiWs s.data).map (fun w => ⟨w⟩)

/-- `str::split_once(c)` on a character list: split at the first occurrence
of `c`, or `none` if `c` does not occur. -/
def splitOnceL (c : Char) : List Char → Option (List Char × List Char)
  | [] => none
  | x :: xs =>
    if x = c then some ([], xs)
    else
      match splitOnceL c xs with
      | some (a, b) => some (x :: a, b)
      | none => none

/-- `str::split_once(c)`. -/
def splitOnce (c : Char) (s : String) : Option (String × String) :=
  match splitOnceL c s.data with
  | some (a, b) => some (⟨a⟩, ⟨b⟩)
  | none => none

/-- `s.contains(c)` for a single character. -/
def containsChar (c : Char) (s : String) : Bool :=
  s.data.contains c

/-- `CString::new` fails (and the source's `.unwrap()` panics) when a token
contains an interior NUL byte. -/
def hasNulToken (ts : List String) : Bool :=
  ts.any (fun t => t.data.contains (Char.ofNat 0))

/-! ## The execution primitive: `run_execvp` (src/executor.rs) -/

/-- What becomes of the process that called `run_execvp`. -/
inductive ExecOutcome
  /-- A Rust panic: a diagnostic is printed and the process exits with
  status 101.  Reached by `CString::new(..).unwrap()` on a NUL-containing
  token, or by `&cstr_args[0]` on an empty token vector. -/
  | panicked (msg : String)
  /-- `execvp` returned an error: `Execution failed: {err}` is printed and
  the process exits with status 1. -/
  | execFailed (err : String)
  /-- `execvp` succeeded: the process image is replaced by `prog` running
  with argument vector `args` (argument 0 is the program name). -/
  | execed (prog : String) (args : List String)
deriving DecidableEq, Repr

/-- Exit status of the calling process, `none` if the image was replaced. -/
def ExecOutcome.exitCode : ExecOutcome → Option Nat
  | .panicked _ => some 101
  | .execFailed _ => some 1
  | .execed _ _ => none

/-- The diagnostic printed to stderr, `none` if the image was replaced. -/
def ExecOutcome.diag : ExecOutcome → Option String
  | .panicked m => some m
  | .execFailed e => some ("Execution failed: " ++ e)
  | .execed _ _ => none

/-- `run_execvp` from src/executor.rs.  `execvpErr prog args` is the OS
oracle: `some e` when `execvp(prog, args)` would fail with error `e`,
`none` when it would replace the image.  The source tokenizes `command`,
converts each token to a `CString` (unwrap: panic on NUL), takes
`&cstr_args[0]` (panic on an empty vector), and calls `execvp`. -/
def run_execvp (command : String)
    (execvpErr : String → List String → Option String) : ExecOutcome :=
  let tokens := splitAsciiWhitespace command
  if hasNulToken tokens then
    .panicked "called Result::unwrap on an Err value: NulError"
  else
    match tokens with
    | [] => .panicked "index out of bounds: the len is 0 but the index is 0"
    | prog :: rest =>
      match execvpErr prog (prog :: rest) with
      | some e => .execFailed e
      | none => .execed prog (prog :: rest)

/-! ## The child branch after `fork` (src/main.rs, child arm) -/

/-- OS oracle for the child branch: `openErr f` is `some e` when `open`
on filename `f` would fail (the source then panics on `.unwrap()`;
the open flags differ between the `>` and `<` branches but the oracle
abstracts over them), and `execvpErr` is as in `run_execvp`. -/
structure ChildEnv where
  openErr : String → Option String
  execvpErr : String → List String → Option String

/-- How the child process ends (or is replaced). -/
inductive ChildTerm
  /-- `open(..).unwrap()` panicked before any `dup2`. -/
  | panickedOpen (msg : String)
  /-- control reached `run_execvp`, with this outcome. -/
  | ran (e : ExecOutcome)
deriving DecidableEq, Repr

/-- Observable behaviour of the child branch: which descriptors were
remapped by `dup2` before the exec, and how the child ended. -/
structure ChildResult where
  /-- `some f`: fd 1 (stdout) was remapped to the opened file `f`. -/
  stdoutRedir : Option String
  /-- `some f`: fd 0 (stdin) was remapped to the opened file `f`. -/
  stdinRedir : Option String
  term : ChildTerm
deriving DecidableEq, Repr

/-- The child arm of the `fork` match in `main`: check `command` for `>`
(first occurrence wins), else for `<`, open and `dup2` accordingly, then
call `run_execvp` on the part before the operator (or the whole line). -/
def childRun (command : String) (cenv : ChildEnv) : ChildResult :=
  match splitOnce '>' command with
  | some (cmd, filename) =>
    let f := rustTrim filename
    match cenv.openErr f with
    | some e => ⟨none, none, .panickedOpen ("called Result::unwrap on an Err value: " ++ e)⟩
    | none => ⟨some f, none, .ran (run_execvp cmd cenv.execvpErr)⟩
  | none =>
    match splitOnce '<' command with
    | some (cmd, filename) =>
      let f := rustTrim filename
      match cenv.openErr f with
      | some e => ⟨none, none, .panickedOpen ("called Result::unwrap on an Err value: " ++ e)⟩
      | none => ⟨none, some f, .ran (run_execvp cmd cenv.execvpErr)⟩
    | none => ⟨none, none, .ran (run_execvp command cenv.execvpErr)⟩

/-! ## One iteration of the interpreter loop (src/main.rs) -/

/-- Result of `fork` as seen by the current process. -/
inductive ForkRes
  /-- this process is the new child. -/
  | child
  /-- this process is the parent; the child has this pid. -/
  | parent (pid : Nat)
  /-- `fork` failed with this error. -/
  | err (e : String)

/-- OS oracle for one loop iteration.  `readRes` models
`io::stdin().read_line(&mut input)`: `Except.ok s` is a successful read
leaving `s` in the buffer (end-of-input reads zero bytes, so it is
`Except.ok ""`); `Except.error e` is an `Err` from the read.
`chdirRes target` is `Except.ok d` when `chdir(target)` succeeds and the
working directory becomes `d`, `Except.error e` when it fails with OS
error `e` (the working directory is then unchanged). -/
structure Env where
  getcwdRes : Except String String
  flushErr : Option String
  readRes : Except String String
  chdirRes : String → Except String String
  forkRes : ForkRes

/-- Where control stands at the end of the iteration. -/
inductive Outcome
  /-- the loop continues with its next iteration. -/
  | next
  /-- `process::exit(code)` was called. -/
  | exited (code : Nat)
  /-- a Rust panic terminated the process (printing `msg`). -/
  | panicked (msg : String)
  /-- `fork` returned `Child`: this process now runs the child arm on
  `command` (see `childRun`). -/
  | inChild (command : String)
deriving DecidableEq, Repr

/-- Observable result of one iteration. -/
structure StepResult where
  outcome : Outcome
  /-- `fork` succeeded and a child process was created (parent arm:
  the parent then does `waitpid` on it, discarding the status). -/
  spawnedChild : Bool
  /-- stderr messages printed by this process during the iteration. -/
  messages : List String
  /-- working directory at the end of the iteration. -/
  cwd : String
  /-- the `cd` built-in branch ran (a `chdir` call was attempted). -/
  calledChdir : Bool
deriving DecidableEq, Repr

/-- Dispatch on the already-trimmed command (`main`, from
`if command == "exit"` on): the `exit` built-in, tokenization, the
empty-line skip, the `cd` built-in, and otherwise `fork`. -/
def dispatch (cwd : String) (command : String)
    (chdirRes : String → Except String String) (fr : ForkRes) : StepResult :=
  if command = "exit" then
    ⟨.exited 0, false, [], cwd, false⟩
  else
    match splitAsciiWhitespace command with
    | [] => ⟨.next, false, [], cwd, false⟩
    | t0 :: rest =>
      if t0 = "cd" then
        match chdirRes (rest.headD "/") with
        | .error e => ⟨.next, false, ["cd :" ++ e], cwd, true⟩
        | .ok d => ⟨.next, false, [], d, true⟩
      else
        match fr with
        | .child => ⟨.inChild command, false, [], cwd, false⟩
        | .parent _ => ⟨.next, true, [], cwd, false⟩
        | .err e => ⟨.next, false, ["Fork failed: " ++ e], cwd, false⟩

/-- Processing of one successfully read line: `main` trims the raw input
(`let command = input.trim()`) and dispatches on the result. -/
def processLine (cwd : String) (input : String)
    (chdirRes : String → Except String String) (fr : ForkRes) : StepResult :=
  dispatch cwd (rustTrim input) chdirRes fr

/-- One full iteration of the `loop` in `main`: `getcwd().unwrap()` (panic
on error), prompt print and `stdout().flush().unwrap()` (panic on error),
`read_line` (on `Err`: print `Failed to read line` and continue), then
`processLine`. -/
def shellStep (cwd : String) (env : Env) : StepResult :=
  match env.getcwdRes with
  | .error e =>
    ⟨.panicked ("called Result::unwrap on an Err value: " ++ e), false, [], cwd, false⟩
  | .ok _dir =>
    match env.flushErr with
    | some e =>
      ⟨.panicked ("failed printing to stdout: " ++ e), false, [], cwd, false⟩
    | none =>
      match env.readRes with
      | .error _ => ⟨.next, false, ["Failed to read line"], cwd, false⟩
      | .ok input => processLine cwd input env.chdirRes env.forkRes

/-- `true` exactly when the outcome means this (parent) process is gone:
an explicit `exit` or a panic.  `inChild` is the freshly forked child, not
the parent, and `next` keeps looping. -/
def terminatesParent : Outcome → Bool
  | .next => false
  | .exited _ => true
  | .panicked _ => true
  | .inChild _ => false

/-! ## Iterating the loop -/

/-- State of the interpreter across iterations. -/
inductive LoopState
  | running (cwd : String)
  | exited (code : Nat)
  | panicked (msg : String)
  | childBranch (command : String)
deriving DecidableEq, Repr

/-- Feed one iteration's environment to a loop state. -/
def loopIter (st : LoopState) (env : Env) : LoopState :=
  match st with
  | .running cwd =>
    let r := shellStep cwd env
    match r.outcome with
    | .next => .running r.cwd
    | .exited c => .exited c
    | .panicked m => .panicked m
    | .inChild c => .childBranch c
  | st => st

/-- Run the loop through a list of per-iteration environments. -/
def loopRun (cwd : String) (envs : List Env) : LoopState :=
  envs.foldl loopIter (.running cwd)

/-! ## Helper lemmas -/

theorem tokens_exit : splitAsciiWhitespace "exit" = ["exit"] := by decide

/-- A command whose first token is not `exit` is not the string `exit`. -/
theorem ne_exit_of_head (command t : String) (rest : List String)
    (ht : splitAsciiWhitespace command = t :: rest) (hne : t ≠ "exit") :
    command ≠ "exit" := by
  intro hc
  rw [hc, tokens_exit] at ht
  exact hne (List.cons.inj ht).1.symm

/-- When the three leading system calls succeed, the iteration is exactly
`processLine` on the buffer the read delivered. -/
theorem shellStep_ok (cwd : String) (env : Env) (d input : String)
    (hg : env.getcwdRes = Except.ok d) (hf : env.flushErr = none)
    (hr : env.readRes = Except.ok input) :
    shellStep cwd env = processLine cwd input env.chdirRes env.forkRes := by
  simp only [shellStep, hg, hf, hr]

/-- The `exit` branch of the dispatcher. -/
theorem dispatch_exit (cwd : String) (chd : String → Except String String)
    (fr : ForkRes) :
    dispatch cwd "exit" chd fr = ⟨.exited 0, false, [], cwd, false⟩ := rfl

/-- A non-`exit` command with an empty token sequence is a no-op. -/
theorem dispatch_nil (cwd command : String) (chd : String → Except String String)
    (fr : ForkRes) (hne : command ≠ "exit")
    (ht : splitAsciiWhitespace command = []) :
    dispatch cwd command chd fr = ⟨.next, false, [], cwd, false⟩ := by
  unfold dispatch
  rw [if_neg hne, ht]

/-- Equation for the dispatcher on a non-`exit` command with at least one
token: the `cd` test on the first token, then either the `cd` branch or
the `fork` branch. -/
theorem dispatch_cons (cwd command t0 : String) (rest : List String)
    (chd : String → Except String String) (fr : ForkRes)
    (hne : command ≠ "exit")
    (ht : splitAsciiWhitespace command = t0 :: rest) :
    dispatch cwd command chd fr =
      if t0 = "cd" then
        (match chd (rest.headD "/") with
         | .error e => ⟨.next, false, ["cd :" ++ e], cwd, true⟩
         | .ok d => ⟨.next, false, [], d, true⟩)
      else
        (match fr with
         | .child => ⟨.inChild command, false, [], cwd, false⟩
         | .parent _ => ⟨.next, true, [], cwd, false⟩
         | .err e => ⟨.next, false, ["Fork failed: " ++ e], cwd, false⟩) := by
  unfold dispatch
  rw [if_neg hne, ht]

/-- The `cd` branch of the dispatcher: determined by the second token
(default `/`) and the `chdir` oracle alone. -/
theorem dispatch_cd (cwd command : String) (chd : String → Except String String)
    (fr : ForkRes) (rest : List String)
    (ht : splitAsciiWhitespace command = "cd" :: rest) :
    dispatch cwd command chd fr =
      (match chd (rest.headD "/") with
       | .error e => ⟨.next, false, ["cd :" ++ e], cwd, true⟩
       | .ok d => ⟨.next, false, [], d, true⟩) := by
  have hne : command ≠ "exit" := ne_exit_of_head command "cd" rest ht (by decide)
  rw [dispatch_cons cwd command "cd" rest chd fr hne ht, if_pos rfl]

/-- A non-`exit` command never reaches `process::exit`: the dispatcher
either continues the loop or is the freshly forked child. -/
theorem dispatch_not_exit (cwd command : String)
    (chd : String → Except String String) (fr : ForkRes)
    (hne : command ≠ "exit") :
    (dispatch cwd command chd fr).outcome = Outcome.next ∨
    ∃ c, (dispatch cwd command chd fr).outcome = Outcome.inChild c := by
  cases htok : splitAsciiWhitespace command with
  | nil => rw [dispatch_nil cwd command chd fr hne htok]; exact Or.inl rfl
  | cons t0 rest =>
    rw [dispatch_cons cwd command t0 rest chd fr hne htok]
    by_cases hcd : t0 = "cd"
    · rw [if_pos hcd]
      cases chd (rest.headD "/") with
      | error e => exact Or.inl rfl
      | ok d => exact Or.inl rfl
    · rw [if_neg hcd]
      cases fr with
      | child => exact Or.inr ⟨command, rfl⟩
      | parent p => exact Or.inl rfl
      | err e => exact Or.inl rfl

/-- A list of whitespace characters trims to nothing. -/
theorem rustTrimList_all_ws (l : List Char) (h : l.all isAsciiWs = true) :
    rustTrimList l = [] := by
  have hdrop : ∀ m : List Char, m.all isAsciiWs = true → m.dropWhile isAsciiWs = [] := by
    intro m hm
    induction m with
    | nil => rfl
    | cons c cs ih =>
      rw [List.all_cons, Bool.and_eq_true] at hm
      simp only [List.dropWhile]
      rw [hm.1]
      exact ih hm.2
  unfold rustTrimList
  rw [hdrop l h]
  rfl

/-- Splitting at the first occurrence of a contained character: the result
decomposes the list and the prefix is free of the character. -/
theorem splitOnceL_mem (c : Char) (l : List Char) (h : c ∈ l) :
    ∃ a b, splitOnceL c l = some (a, b) ∧ l = a ++ c :: b ∧ c ∉ a := by
  induction l with
  | nil => cases h
  | cons x xs ih =>
    by_cases hx : x = c
    · exact ⟨[], xs, by simp [splitOnceL, hx], by rw [hx]; rfl, by simp⟩
    · have hmem : c ∈ xs := by
        cases h with
        | head => exact absurd rfl hx
        | tail _ h => exact h
      obtain ⟨a, b, h1, h2, h3⟩ := ih hmem
      refine ⟨x :: a, b, ?_, ?_, ?_⟩
      · simp [splitOnceL, hx, h1]
      · rw [List.cons_append, h2]
      · intro hc
        cases hc with
        | head => exact hx rfl
        | tail _ hc => exact h3 hc

/-! ## Claims -/

/-- C1, counterexample.  The claim says no parent-side error (prompt
rendering, working-directory query, input read, cd failure, fork failure)
ever terminates the parent, only the `exit` built-in does.  But `main`
calls `getcwd().unwrap()`: when the working-directory query fails, the
parent panics and terminates, even though the pending line (`ls`) is not
`exit`.  (The prompt flush is likewise unwrapped.) -/
theorem C1_counterexample :
    terminatesParent (shellStep "/"
      ⟨Except.error "EIO", none, Except.ok "ls",
       fun _ => Except.ok "/", ForkRes.parent 1⟩).outcome = true ∧
    (shellStep "/"
      ⟨Except.error "EIO", none, Except.ok "ls",
       fun _ => Except.ok "/", ForkRes.parent 1⟩).outcome ≠ Outcome.exited 0 ∧
    rustTrim "ls" ≠ "exit" := by
  decide

/-- C1, amended: in every iteration in which the working-directory query
and the prompt flush succeed, no other parent-side error (input read, cd
failure, fork failure) terminates the parent: if the parent process
terminates at all in that iteration, it does so through the `exit`
built-in with status 0.  (A `getcwd` or stdout-flush failure, by
contrast, terminates the parent by panic, see the counterexample.) -/
theorem C1_parent_only_exits_via_exit_builtin (cwd : String) (env : Env)
    (d : String)
    (hg : env.getcwdRes = Except.ok d) (hf : env.flushErr = none)
    (hterm : terminatesParent (shellStep cwd env).outcome = true) :
    (shellStep cwd env).outcome = Outcome.exited 0 := by
  cases hr : env.readRes with
  | error e =>
    rw [show shellStep cwd env = ⟨.next, false, ["Failed to read line"], cwd, false⟩
          from by simp only [shellStep, hg, hf, hr]] at hterm
    cases hterm
  | ok input =>
    rw [shellStep_ok cwd env d input hg hf hr] at hterm ⊢
    unfold processLine at hterm ⊢
    by_cases he : rustTrim input = "exit"
    · rw [he, dispatch_exit]
    · rcases dispatch_not_exit cwd (rustTrim input) env.chdirRes env.forkRes he with
        h | ⟨c, h⟩
      · rw [h] at hterm; cases hterm
      · rw [h] at hterm; cases hterm

/-- C1, witness for the amended theorem at a concrete iteration: `getcwd`
and flush succeed, the line is `exit`, and the iteration indeed
terminates the parent, necessarily with `exit(0)`. -/
theorem C1_witness :
    (shellStep "/"
      ⟨Except.ok "/", none, Except.ok "exit",
       fun _ => Except.ok "/", ForkRes.parent 1⟩).outcome = Outcome.exited 0 :=
  C1_parent_only_exits_via_exit_builtin "/"
    ⟨Except.ok "/", none, Except.ok "exit",
     fun _ => Except.ok "/", ForkRes.parent 1⟩
    "/" rfl rfl (by decide)

/-- C2: when the whitespace tokenization of the command string is empty,
`run_execvp` never attempts to execute anything (no `execed` outcome for
any program, in particular not an empty program name); the child fails:
it panics on `&cstr_args[0]` (index out of bounds), printing a diagnostic
and terminating the child with the non-zero exit status 101. -/
theorem C2_empty_tokens_fail (command : String)
    (ee : String → List String → Option String)
    (h : splitAsciiWhitespace command = []) :
    run_execvp command ee =
      ExecOutcome.panicked "index out of bounds: the len is 0 but the index is 0" ∧
    (∀ p a, run_execvp command ee ≠ ExecOutcome.execed p a) ∧
    (run_execvp command ee).diag.isSome = true ∧
    ∃ n, (run_execvp command ee).exitCode = some n ∧ n ≠ 0 := by
  have hrun : run_execvp command ee =
      ExecOutcome.panicked "index out of bounds: the len is 0 but the index is 0" := by
    unfold run_execvp
    rw [h]
    rfl
  rw [hrun]
  refine ⟨rfl, ?_, rfl, 101, rfl, ?_⟩
  · intro p a hc
    cases hc
  · decide

/-- C2, witness: the command part of the line `> out.txt` is the empty
string, whose tokenization is empty; `run_execvp` panics rather than
exec-ing an empty program name. -/
theorem C2_witness :
    run_execvp "" (fun _ _ => none) =
      ExecOutcome.panicked "index out of bounds: the len is 0 but the index is 0" ∧
    (∀ p a, run_execvp "" (fun _ _ => none) ≠ ExecOutcome.execed p a) ∧
    (run_execvp "" (fun _ _ => none)).diag.isSome = true ∧
    ∃ n, (run_execvp "" (fun _ _ => none)).exitCode = some n ∧ n ≠ 0 :=
  C2_empty_tokens_fail "" (fun _ _ => none) (by decide)

/-- C3: on a command line containing both `>` and `<`, only output
redirection is performed: the line is split at the first `>` (the part
before it is `>`-free), stdin is never remapped, and when the open
succeeds the child remaps stdout to the trimmed filename part and execs
the part before the `>` — the input-redirection branch is never reached. -/
theorem C3_output_redirection_wins (command : String) (cenv : ChildEnv)
    (hgt : '>' ∈ command.data) (_hlt : '<' ∈ command.data) :
    ∃ cmd file,
      splitOnce '>' command = some (cmd, file) ∧
      command.data = cmd.data ++ '>' :: file.data ∧
      '>' ∉ cmd.data ∧
      (childRun command cenv).stdinRedir = none ∧
      (cenv.openErr (rustTrim file) = none →
        childRun command cenv =
          ⟨some (rustTrim file), none,
           ChildTerm.ran (run_execvp cmd cenv.execvpErr)⟩) := by
  obtain ⟨a, b, hs, hdecomp, hna⟩ := splitOnceL_mem '>' command.data hgt
  have hsplit : splitOnce '>' command = some (⟨a⟩, ⟨b⟩) := by
    unfold splitOnce
    rw [hs]
  have hrun : childRun command cenv =
      (match cenv.openErr (rustTrim ⟨b⟩) with
       | some e =>
         ⟨none, none,
          ChildTerm.panickedOpen ("called Result::unwrap on an Err value: " ++ e)⟩
       | none =>
         ⟨some (rustTrim ⟨b⟩), none,
          ChildTerm.ran (run_execvp ⟨a⟩ cenv.execvpErr)⟩) := by
    unfold childRun
    rw [hsplit]
  refine ⟨⟨a⟩, ⟨b⟩, hsplit, hdecomp, hna, ?_, ?_⟩
  · rw [hrun]
    cases cenv.openErr (rustTrim ⟨b⟩) with
    | some e => rfl
    | none => rfl
  · intro hopen
    rw [hrun, hopen]

/-- C3, witness at `a>b<c`: split at the first `>`, stdout remapped to
`b<c`, stdin untouched, exec of `a`. -/
theorem C3_witness :
    ∃ cmd file,
      splitOnce '>' "a>b<c" = some (cmd, file) ∧
      ("a>b<c" : String).data = cmd.data ++ '>' :: file.data ∧
      '>' ∉ cmd.data ∧
      (childRun "a>b<c" ⟨fun _ => none, fun _ _ => some "ENOENT"⟩).stdinRedir = none ∧
      ((fun _ => none : String → Option String) (rustTrim file) = none →
        childRun "a>b<c" ⟨fun _ => none, fun _ _ => some "ENOENT"⟩ =
          ⟨some (rustTrim file), none,
           ChildTerm.ran (run_execvp cmd (fun _ _ => some "ENOENT"))⟩) :=
  C3_output_redirection_wins "a>b<c" ⟨fun _ => none, fun _ _ => some "ENOENT"⟩
    (by decide) (by decide)

/-- C4, counterexample.  The claim counts end-of-input among the failing
reads and says every failing read is reported.  But `read_line` at
end-of-input returns `Ok(0)`, leaving the buffer empty: the iteration
prints no message at all (in particular not `Failed to read line`) and
simply continues, refuting the claim for the end-of-input case. -/
theorem C4_counterexample :
    (⟨Except.ok "/", none, Except.ok "",
      fun _ => Except.ok "/", ForkRes.parent 1⟩ : Env).readRes = Except.ok "" ∧
    (shellStep "/"
      ⟨Except.ok "/", none, Except.ok "",
       fun _ => Except.ok "/", ForkRes.parent 1⟩).messages = [] ∧
    (shellStep "/"
      ⟨Except.ok "/", none, Except.ok "",
       fun _ => Except.ok "/", ForkRes.parent 1⟩).outcome = Outcome.next := by
  refine ⟨rfl, ?_, ?_⟩ <;> decide

/-- C4, amended: for every line-read that returns an I/O **error** (an
`Err` from `read_line`), the interpreter prints `Failed to read line` and
continues to the next iteration, spawning no child — the read error never
crashes the loop.  End-of-input, by contrast, is a successful zero-byte
read and is handled as a blank line with no report (see C9). -/
theorem C4_read_error_reported (cwd : String) (env : Env) (d e : String)
    (hg : env.getcwdRes = Except.ok d) (hf : env.flushErr = none)
    (hr : env.readRes = Except.error e) :
    shellStep cwd env =
      ⟨Outcome.next, false, ["Failed to read line"], cwd, false⟩ := by
  simp only [shellStep, hg, hf, hr]

/-- C4, witness: a concrete failing read is reported and the loop goes on. -/
theorem C4_witness :
    shellStep "/"
      ⟨Except.ok "/", none, Except.error "EIO",
       fun _ => Except.ok "/", ForkRes.parent 1⟩ =
      ⟨Outcome.next, false, ["Failed to read line"], "/", false⟩ :=
  C4_read_error_reported "/"
    ⟨Except.ok "/", none, Except.error "EIO",
     fun _ => Except.ok "/", ForkRes.parent 1⟩
    "/" "EIO" rfl rfl rfl

/-- C5: when the trimmed input equals `exit` exactly, the iteration calls
`process::exit(0)`: status 0, no child spawned, nothing printed, nothing
else done; and when the trimmed input is anything else (e.g. `exit` with
further tokens, whose trimmed text is not the string `exit`), the
iteration never reaches `process::exit(0)`. -/
theorem C5_exit_builtin (cwd input : String) (env : Env) (d : String)
    (hg : env.getcwdRes = Except.ok d) (hf : env.flushErr = none)
    (hr : env.readRes = Except.ok input) :
    (rustTrim input = "exit" →
      shellStep cwd env = ⟨Outcome.exited 0, false, [], cwd, false⟩) ∧
    (rustTrim input ≠ "exit" →
      (shellStep cwd env).outcome ≠ Outcome.exited 0) := by
  rw [shellStep_ok cwd env d input hg hf hr]
  unfold processLine
  constructor
  · intro he
    rw [he, dispatch_exit]
  · intro hne hc
    rcases dispatch_not_exit cwd (rustTrim input) env.chdirRes env.forkRes hne with
      h | ⟨c, h⟩
    · rw [hc] at h; cases h
    · rw [hc] at h; cases h

/-- C5, witness: the line `  exit  ` trims to `exit` and terminates the
interpreter with status 0 and no child; the theorem's second half applied
to `exit now` shows an argumentful `exit` does not match the built-in. -/
theorem C5_witness :
    shellStep "/"
      ⟨Except.ok "/", none, Except.ok "  exit  ",
       fun _ => Except.ok "/", ForkRes.parent 1⟩ =
      ⟨Outcome.exited 0, false, [], "/", false⟩ ∧
    (shellStep "/"
      ⟨Except.ok "/", none, Except.ok "exit now",
       fun _ => Except.ok "/", ForkRes.parent 1⟩).outcome ≠ Outcome.exited 0 :=
  ⟨(C5_exit_builtin "/" "  exit  "
      ⟨Except.ok "/", none, Except.ok "  exit  ",
       fun _ => Except.ok "/", ForkRes.parent 1⟩ "/" rfl rfl rfl).1 (by decide),
   (C5_exit_builtin "/" "exit now"
      ⟨Except.ok "/", none, Except.ok "exit now",
       fun _ => Except.ok "/", ForkRes.parent 1⟩ "/" rfl rfl rfl).2 (by decide)⟩

/-- C6: when the first token is `cd`, the target is the second token when
present and `/` when absent (`rest.headD "/"`); if `chdir` fails, the
iteration prints `cd :` followed by the OS error, leaves the working
directory unchanged, and continues the loop without spawning — `cd`
failure is never fatal.  On success the working directory becomes what
`chdir` made it. -/
theorem C6_cd_builtin (cwd input : String) (env : Env) (d : String)
    (rest : List String)
    (hg : env.getcwdRes = Except.ok d) (hf : env.flushErr = none)
    (hr : env.readRes = Except.ok input)
    (ht : splitAsciiWhitespace (rustTrim input) = "cd" :: rest) :
    (∀ e, env.chdirRes (rest.headD "/") = Except.error e →
      shellStep cwd env = ⟨Outcome.next, false, ["cd :" ++ e], cwd, true⟩) ∧
    (∀ d2, env.chdirRes (rest.headD "/") = Except.ok d2 →
      shellStep cwd env = ⟨Outcome.next, false, [], d2, true⟩) := by
  rw [shellStep_ok cwd env d input hg hf hr]
  unfold processLine
  rw [dispatch_cd cwd (rustTrim input) env.chdirRes env.forkRes rest ht]
  constructor
  · intro e he
    rw [he]
  · intro d2 hd2
    rw [hd2]

/-- C6, witness: `cd /nope` with a failing `chdir` prints the tagged error
and leaves the working directory at `/`; the loop continues. -/
theorem C6_witness :
    shellStep "/"
      ⟨Except.ok "/", none, Except.ok "cd /nope",
       fun _ => Except.error "ENOENT: No such file or directory",
       ForkRes.parent 1⟩ =
      ⟨Outcome.next, false, ["cd :ENOENT: No such file or directory"], "/", true⟩ :=
  (C6_cd_builtin "/" "cd /nope"
      ⟨Except.ok "/", none, Except.ok "cd /nope",
       fun _ => Except.error "ENOENT: No such file or directory",
       ForkRes.parent 1⟩
      "/" ["/nope"] rfl rfl rfl (by decide)).1
    "ENOENT: No such file or directory" rfl

/-- C7: on a command whose tokenization is non-empty (with no interior-NUL
token, so the `CString` conversions succeed), when `execvp` fails, the
child prints `Execution failed: ` followed by the OS error and exits with
status 1 — `run_execvp` never returns to its caller (every outcome either
exits the process or replaces its image; here it exits 1). -/
theorem C7_exec_failure_exits_one (command prog : String) (rest : List String)
    (ee : String → List String → Option String) (e : String)
    (ht : splitAsciiWhitespace command = prog :: rest)
    (hnul : hasNulToken (prog :: rest) = false)
    (he : ee prog (prog :: rest) = some e) :
    run_execvp command ee = ExecOutcome.execFailed e ∧
    (run_execvp command ee).diag = some ("Execution failed: " ++ e) ∧
    (run_execvp command ee).exitCode = some 1 := by
  have hrun : run_execvp command ee = ExecOutcome.execFailed e := by
    unfold run_execvp
    rw [ht]
    simp only [hnul, Bool.false_eq_true, if_false]
    rw [he]
  rw [hrun]
  exact ⟨rfl, rfl, rfl⟩

/-- C7, witness: `this-does-not-exist` fails to exec; the child prints the
diagnostic and exits 1. -/
theorem C7_witness :
    run_execvp "this-does-not-exist" (fun _ _ => some "ENOENT") =
      ExecOutcome.execFailed "ENOENT" ∧
    (run_execvp "this-does-not-exist" (fun _ _ => some "ENOENT")).diag =
      some ("Execution failed: " ++ "ENOENT") ∧
    (run_execvp "this-does-not-exist" (fun _ _ => some "ENOENT")).exitCode =
      some 1 :=
  C7_exec_failure_exits_one "this-does-not-exist" "this-does-not-exist" []
    (fun _ _ => some "ENOENT") "ENOENT" (by decide) (by decide) rfl

/-- C8: a line consisting only of whitespace trims and tokenizes to the
empty token sequence, and the iteration does nothing: no spawn, no
built-in (`exit` not taken, `chdir` not called), no message, working
directory untouched — the loop just continues to the next prompt. -/
theorem C8_blank_line_noop (cwd input : String) (env : Env) (d : String)
    (hg : env.getcwdRes = Except.ok d) (hf : env.flushErr = none)
    (hr : env.readRes = Except.ok input)
    (hw : input.data.all isAsciiWs = true) :
    splitAsciiWhitespace (rustTrim input) = [] ∧
    shellStep cwd env = ⟨Outcome.next, false, [], cwd, false⟩ := by
  have htrim : rustTrim input = "" := by
    unfold rustTrim
    rw [rustTrimList_all_ws input.data hw]
  constructor
  · rw [htrim]
    decide
  · rw [shellStep_ok cwd env d input hg hf hr]
    unfold processLine
    rw [htrim]
    rfl

/-- C8, witness: the line `   ` (spaces and a tab) is a silent no-op. -/
theorem C8_witness :
    splitAsciiWhitespace (rustTrim "  \t ") = [] ∧
    shellStep "/"
      ⟨Except.ok "/", none, Except.ok "  \t ",
       fun _ => Except.ok "/", ForkRes.parent 1⟩ =
      ⟨Outcome.next, false, [], "/", false⟩ :=
  C8_blank_line_noop "/" "  \t "
    ⟨Except.ok "/", none, Except.ok "  \t ",
     fun _ => Except.ok "/", ForkRes.parent 1⟩
    "/" rfl rfl rfl (by decide)

/-- C9: a successful read that delivers zero bytes (end-of-input leaves
the buffer empty) prints nothing, spawns nothing, and does not terminate
the interpreter: the iteration is exactly a blank-line iteration, and on
persistent end-of-input the loop stays `running` (re-prompting) for any
number of iterations. -/
theorem C9_eof_is_blank_line (cwd : String) (env : Env) (d : String) (n : Nat)
    (hg : env.getcwdRes = Except.ok d) (hf : env.flushErr = none)
    (hr : env.readRes = Except.ok "") :
    (shellStep cwd env).messages = [] ∧
    shellStep cwd env = ⟨Outcome.next, false, [], cwd, false⟩ ∧
    loopRun cwd (List.replicate n env) = LoopState.running cwd := by
  have hstep : shellStep cwd env = ⟨Outcome.next, false, [], cwd, false⟩ := by
    rw [shellStep_ok cwd env d "" hg hf hr]
    rfl
  have hiter : loopIter (LoopState.running cwd) env = LoopState.running cwd := by
    show (match (shellStep cwd env).outcome with
          | Outcome.next => LoopState.running (shellStep cwd env).cwd
          | Outcome.exited c => LoopState.exited c
          | Outcome.panicked m => LoopState.panicked m
          | Outcome.inChild c => LoopState.childBranch c) = LoopState.running cwd
    rw [hstep]
  refine ⟨by rw [hstep], hstep, ?_⟩
  induction n with
  | zero => rfl
  | succ m ih =>
    rw [List.replicate_succ]
    unfold loopRun at ih ⊢
    rw [List.foldl_cons, hiter]
    exact ih

/-- C9, witness: three iterations of persistent end-of-input leave the
interpreter running with no output and no children. -/
theorem C9_witness :
    (shellStep "/"
      ⟨Except.ok "/", none, Except.ok "",
       fun _ => Except.ok "/", ForkRes.err "EAGAIN"⟩).messages = [] ∧
    shellStep "/"
      ⟨Except.ok "/", none, Except.ok "",
       fun _ => Except.ok "/", ForkRes.err "EAGAIN"⟩ =
      ⟨Outcome.next, false, [], "/", false⟩ ∧
    loopRun "/" (List.replicate 3
      ⟨Except.ok "/", none, Except.ok "",
       fun _ => Except.ok "/", ForkRes.err "EAGAIN"⟩) = LoopState.running "/" :=
  C9_eof_is_blank_line "/"
    ⟨Except.ok "/", none, Except.ok "",
     fun _ => Except.ok "/", ForkRes.err "EAGAIN"⟩
    "/" 3 rfl rfl rfl

/-- C10: when the first token is `cd`, the built-in runs before the fork
and before redirection detection: no child is spawned, the iteration is
never the child branch (where `>`/`<` splitting and `dup2` happen — so no
redirection occurs even if the line contains `>` or `<`), and the result
is unchanged under replacing the line by any other `cd` line with the
same target (second token, default `/`): all later tokens are silently
ignored. -/
theorem C10_cd_precedes_fork_and_redirect (cwd input input2 : String)
    (chd : String → Except String String) (fr : ForkRes)
    (rest rest2 : List String)
    (ht : splitAsciiWhitespace (rustTrim input) = "cd" :: rest)
    (ht2 : splitAsciiWhitespace (rustTrim input2) = "cd" :: rest2)
    (hsame : rest.headD "/" = rest2.headD "/") :
    (processLine cwd input chd fr).spawnedChild = false ∧
    (∀ c, (processLine cwd input chd fr).outcome ≠ Outcome.inChild c) ∧
    processLine cwd input chd fr = processLine cwd input2 chd fr := by
  unfold processLine
  rw [dispatch_cd cwd (rustTrim input) chd fr rest ht,
      dispatch_cd cwd (rustTrim input2) chd fr rest2 ht2, hsame]
  refine ⟨?_, ?_, rfl⟩
  · cases chd (rest2.headD "/") with
    | error e => rfl
    | ok d => rfl
  · intro c hc
    cases hh : chd (rest2.headD "/") with
    | error e => rw [hh] at hc; cases hc
    | ok d => rw [hh] at hc; cases hc

/-- C10, witness: `cd a>b c` (a `cd` line containing `>` and an extra
token) spawns nothing, is never the child branch, and behaves exactly
like `cd a>b`. -/
theorem C10_witness :
    (processLine "/" "cd a>b c" (fun _ => Except.ok "/a>b")
      ForkRes.child).spawnedChild = false ∧
    (∀ c, (processLine "/" "cd a>b c" (fun _ => Except.ok "/a>b")
      ForkRes.child).outcome ≠ Outcome.inChild c) ∧
    processLine "/" "cd a>b c" (fun _ => Except.ok "/a>b") ForkRes.child =
      processLine "/" "cd a>b" (fun _ => Except.ok "/a>b") ForkRes.child :=
  C10_cd_precedes_fork_and_redirect "/" "cd a>b c" "cd a>b"
    (fun _ => Except.ok "/a>b") ForkRes.child
    ["a>b", "c"] ["a>b"] (by decide) (by decide) rfl

end MiniShell
